import Mathlib

/-!
Verification of the TypeAnnotateCheck repository.

The repository has two source files:

* `src/mypycheck.py` registers an IPython cell magic `typechecker(line, cell)`
  that tries to import `mypy.api.run`; on `ImportError` it returns an
  instructive string, otherwise it calls `run(['-c', cell, *line.split()])`,
  prints the non-empty parts of the resulting `(stdout, stderr, status)`
  triple under labeled headers, and returns the exit status.
* `src/mytuples.py` defines `my_tuple0(a, b, c) -> tuple` twice, each time
  calling it on `(4, 7, -5)` and printing the tuple and the function's
  `__annotations__` mapping.

We embed both files shallowly.  The external capability (`mypy.api.run`)
is modeled as an `Option` of a function from the argument list to the
result triple: `none` models the `ImportError` branch.  Printing is
modeled by returning the list of strings passed to `print`, in order.
-/

/-- Python `str.split()` splits a list of characters on runs of whitespace,
dropping empty pieces.  `acc` holds the current in-progress token reversed. -/
def splitWsAux : List Char → List Char → List (List Char)
  | [], acc => if acc = [] then [] else [acc.reverse]
  | c :: rest, acc =>
    if c.isWhitespace then
      (if acc = [] then [] else [acc.reverse]) ++ splitWsAux rest []
    else
      splitWsAux rest (c :: acc)

/-- Python `line.split()` (no separator argument): split on whitespace runs,
discarding empty tokens. -/
def pySplit (s : String) : List String :=
  (splitWsAux s.toList []).map List.asString

/-- The value `typechecker` returns: a string on the `ImportError` branch,
the integer mypy exit status otherwise (Python `str | int`). -/
inductive TypecheckResult where
  | str (s : String)
  | status (n : Int)
deriving DecidableEq

/-- The string returned when `from mypy.api import run` fails
(src/mypycheck.py line 14). -/
def installMsg : String :=
  "\x27mypy\x27 not installed. Did you run \x27pip install mypy\x27?"

/-- The header printed before mypy stdout (src/mypycheck.py line 23). -/
def typeReportHeader : String := "\nType checking report:\n"

/-- The header printed before mypy stderr (src/mypycheck.py line 27). -/
def errorReportHeader : String := "\nError report:\n"

/-- Shallow embedding of `typechecker(line, cell)` from src/mypycheck.py.
`capability` models the importability of `mypy.api.run`: `none` is the
`ImportError` branch, `some run` the successful import.  The second
component of the result collects, in order, the strings passed to `print`.
-/
def typechecker (capability : Option (List String → String × String × Int))
    (line cell : String) : TypecheckResult × List String :=
  match capability with
  | none => (TypecheckResult.str installMsg, [])
  | some run =>
    let args : List String := if line = "" then [] else pySplit line
    let result := run (["-c", cell] ++ args)
    let printed₁ : List String :=
      if result.1 = "" then [] else [typeReportHeader, result.1]
    let printed₂ : List String :=
      if result.2.1 = "" then [] else [errorReportHeader, result.2.1]
    (TypecheckResult.status result.2.2, printed₁ ++ printed₂)

/-- Spec-side description of steps 4–5 of the invocator (printing the
non-empty sections of the result triple and returning the exit status),
used to state what `typechecker` does with the value the capability
returns. -/
def typecheckProcess (result : String × String × Int) :
    TypecheckResult × List String :=
  (TypecheckResult.status result.2.2,
    (if result.1 = "" then [] else [typeReportHeader, result.1]) ++
    (if result.2.1 = "" then [] else [errorReportHeader, result.2.1]))

/-! ## src/mytuples.py -/

/-- A Python type marker appearing in `__annotations__`. -/
inductive PyType where
  | int
  | tuple
deriving DecidableEq

/-- First definition of `my_tuple0` (src/mytuples.py lines 9–10):
`tuple((a, b, c))` is the ordered triple of the three arguments. -/
def my_tuple0_first (a b c : Int) : List Int := [a, b, c]

/-- Second, duplicated definition of `my_tuple0` (src/mytuples.py
lines 19–20). -/
def my_tuple0_second (a b c : Int) : List Int := [a, b, c]

/-- `my_tuple0.__annotations__` for the first definition: parameter and
return annotations in declaration order. -/
def my_tuple0_first_annotations : List (String × PyType) :=
  [("a", PyType.int), ("b", PyType.int), ("c", PyType.int),
   ("return", PyType.tuple)]

/-- `my_tuple0.__annotations__` for the second definition. -/
def my_tuple0_second_annotations : List (String × PyType) :=
  [("a", PyType.int), ("b", PyType.int), ("c", PyType.int),
   ("return", PyType.tuple)]

/-- Python `repr` of a tuple of integers. -/
def reprTriple (t : List Int) : String :=
  "(" ++ String.intercalate ", " (t.map toString) ++ ")"

/-- Python `repr` of a type marker, e.g. `<class 'int'>`. -/
def PyType.render : PyType → String
  | PyType.int => "<class \x27int\x27>"
  | PyType.tuple => "<class \x27tuple\x27>"

/-- Python `repr` of an `__annotations__` dict. -/
def reprAnnotations (ann : List (String × PyType)) : String :=
  "\x7b" ++
    String.intercalate ", "
      (ann.map fun kv => "\x27" ++ kv.1 ++ "\x27: " ++ kv.2.render) ++
  "\x7d"

/-- One demo block of src/mytuples.py (lines 13–15 and again 23–25):
call the triple builder on `(4, 7, -5)` and print the two labeled lines.
`print` with two arguments joins them with a single space. -/
def demoBlock (f : Int → Int → Int → List Int)
    (ann : List (String × PyType)) : List String :=
  let t47_5 := f 4 7 (-5)
  ["A tuple of int: " ++ " " ++ reprTriple t47_5,
   "Type annotations of my_tuple function: \n" ++ " " ++ reprAnnotations ann]

/-- Everything src/mytuples.py prints, in order: the first demo block with
the first definition, then the second demo block with the second
(shadowing) definition. -/
def mytuplesOutput : List String :=
  demoBlock my_tuple0_first my_tuple0_first_annotations ++
    demoBlock my_tuple0_second my_tuple0_second_annotations

/-! ## Helper lemmas -/

/-- Splitting the empty string yields no tokens. -/
theorem pySplit_nil : pySplit "" = [] := by
  decide

/-- If every character of the list is whitespace, splitting yields no
tokens (with an empty accumulator). -/
theorem splitWsAux_all_ws (l : List Char)
    (h : ∀ c ∈ l, c.isWhitespace) : splitWsAux l [] = [] := by
  induction l with
  | nil => simp [splitWsAux]
  | cons c rest ih =>
    have hc : c.isWhitespace := h c (List.mem_cons_self c rest)
    simp only [splitWsAux, hc, if_pos rfl, if_true, List.nil_append]
    exact ih fun d hd => h d (List.mem_cons_of_mem c hd)

/-- If every character of the line is whitespace, `line.split()` is empty. -/
theorem pySplit_all_ws (s : String)
    (h : ∀ c ∈ s.toList, c.isWhitespace) : pySplit s = [] := by
  unfold pySplit
  rw [splitWsAux_all_ws s.toList h]
  rfl

/-- The string `sub` occurs as a contiguous substring of `s`. -/
def strHasSubstr (s sub : String) : Prop :=
  ∃ pre post, s = pre ++ sub ++ post

/-- On the successful-import branch, `typechecker` is exactly: call the
capability on `"-c"`, the cell, and the whitespace-split tokens of the
line, then print the non-empty sections and return the exit status.
The empty line and the non-empty line cases collapse because splitting
the empty string yields no tokens. -/
theorem typechecker_some_eq (run : List String → String × String × Int)
    (line cell : String) :
    typechecker (some run) line cell =
      typecheckProcess (run (["-c", cell] ++ pySplit line)) := by
  by_cases h : line = ""
  · subst h
    simp [typechecker, typecheckProcess, pySplit_nil]
  · simp [typechecker, typecheckProcess, h]

/-! ## Claim theorems -/

/-- Claim C1: when the `mypy.api` import fails, `typechecker` returns the
instructive string (which contains `mypy` and `pip install mypy`), prints
nothing, and the failure is never surfaced to the caller: the function
totally evaluates to a string result for every `line` and `cell`. -/
theorem typechecker_unavailable (line cell : String) :
    typechecker none line cell = (TypecheckResult.str installMsg, []) ∧
    strHasSubstr installMsg "mypy" ∧
    strHasSubstr installMsg "pip install mypy" := by
  refine ⟨rfl, ?_, ?_⟩
  · exact ⟨"\x27", "\x27 not installed. Did you run \x27pip install mypy\x27?",
      by decide⟩
  · exact ⟨"\x27mypy\x27 not installed. Did you run \x27", "\x27?", by decide⟩

/-- Claim C2: with the capability available, `typechecker` invokes it on
exactly `["-c", cell]` followed by the whitespace-split tokens of `line`
in order (none when the line is empty); in particular on line
`"--strict extra"` and cell `"x = 1"` the capability receives exactly
`["-c", "x = 1", "--strict", "extra"]`. -/
theorem typechecker_invocation :
    (∀ (run : List String → String × String × Int) (line cell : String),
      typechecker (some run) line cell =
        typecheckProcess (run (["-c", cell] ++ pySplit line))) ∧
    (∀ run : List String → String × String × Int,
      typechecker (some run) "--strict extra" "x = 1" =
        typecheckProcess (run ["-c", "x = 1", "--strict", "extra"])) := by
  refine ⟨typechecker_some_eq, fun run => ?_⟩
  have h : pySplit "--strict extra" = ["--strict", "extra"] := by decide
  rw [typechecker_some_eq run "--strict extra" "x = 1", h]
  rfl

/-- Claim C3: for a capability returning `(s, e, n)`, the printed output is
the stdout section (header plus text) exactly when `s` is non-empty,
followed by the stderr section exactly when `e` is non-empty; for
`("ok summary", "", 1)` only the stdout header and text are printed. -/
theorem typechecker_report_sections (line cell s e : String) (n : Int) :
    (typechecker (some (fun _ => (s, e, n))) line cell).2 =
      (if s = "" then [] else [typeReportHeader, s]) ++
      (if e = "" then [] else [errorReportHeader, e]) ∧
    typechecker (some (fun _ => ("ok summary", "", 1))) line cell =
      (TypecheckResult.status 1, [typeReportHeader, "ok summary"]) := by
  constructor
  · rw [typechecker_some_eq]
    rfl
  · rw [typechecker_some_eq]
    rfl

/-- Claim C4: for a capability returning `(s, e, n)`, `typechecker` returns
the exit status `n`; for `("", "", 0)` it prints nothing and returns `0`. -/
theorem typechecker_returns_status (line cell s e : String) (n : Int) :
    (typechecker (some (fun _ => (s, e, n))) line cell).1 =
      TypecheckResult.status n ∧
    typechecker (some (fun _ => ("", "", 0))) line cell =
      (TypecheckResult.status 0, []) := by
  constructor
  · rw [typechecker_some_eq]
    rfl
  · rw [typechecker_some_eq]
    rfl

/-- Claim C5: the result of `typechecker` is a string exactly on the
unavailable branch and an integer status exactly on the available branch;
no other shape occurs. -/
theorem typechecker_result_shape (line cell : String) :
    (∃ s, typechecker none line cell = (TypecheckResult.str s, [])) ∧
    (∀ run : List String → String × String × Int,
      ∃ n printed,
        typechecker (some run) line cell =
          (TypecheckResult.status n, printed)) := by
  refine ⟨⟨installMsg, rfl⟩, fun run => ?_⟩
  rw [typechecker_some_eq]
  exact ⟨_, _, rfl⟩

/-- Claim C6: `my_tuple0` returns the ordered triple of its three
arguments, of length exactly 3, under both of its definitions. -/
theorem my_tuple0_builds_triple (a b c : Int) :
    my_tuple0_first a b c = [a, b, c] ∧
    (my_tuple0_first a b c).length = 3 ∧
    my_tuple0_second a b c = [a, b, c] ∧
    (my_tuple0_second a b c).length = 3 :=
  ⟨rfl, rfl, rfl, rfl⟩

/-- Claim C7: the declared annotation map of `my_tuple0` has exactly the
keys `a`, `b`, `c`, `return` mapped to `int`, `int`, `int`, `tuple`, and
the maps of the two duplicated definitions coincide. -/
theorem my_tuple0_annotation_map :
    my_tuple0_first_annotations.map Prod.fst = ["a", "b", "c", "return"] ∧
    my_tuple0_first_annotations.lookup "a" = some PyType.int ∧
    my_tuple0_first_annotations.lookup "b" = some PyType.int ∧
    my_tuple0_first_annotations.lookup "c" = some PyType.int ∧
    my_tuple0_first_annotations.lookup "return" = some PyType.tuple ∧
    my_tuple0_second_annotations = my_tuple0_first_annotations := by
  decide

/-- Claim C8: the two duplicated definitions of `my_tuple0` are equal as
functions, and the script's full printed output is two identical blocks:
a sequence line showing `(4, 7, -5)` and a metadata line, each printed
twice. -/
theorem mytuples_duplication :
    my_tuple0_first = my_tuple0_second ∧
    demoBlock my_tuple0_first my_tuple0_first_annotations =
      demoBlock my_tuple0_second my_tuple0_second_annotations ∧
    (∃ seqLine annLine,
      mytuplesOutput = [seqLine, annLine, seqLine, annLine] ∧
      strHasSubstr seqLine "(4, 7, -5)") := by
  refine ⟨rfl, rfl, "A tuple of int:  (4, 7, -5)",
    "Type annotations of my_tuple function: \n \x7b\x27a\x27: <class \x27int\x27>, \x27b\x27: <class \x27int\x27>, \x27c\x27: <class \x27int\x27>, \x27return\x27: <class \x27tuple\x27>\x7d",
    ?_, "A tuple of int:  ", "", ?_⟩
  · decide
  · decide

/-- Claim C9: `typechecker` is deterministic: for a fixed capability and a
fixed `(line, cell)` pair, any two invocations produce equal results and
identical printed output. -/
theorem typechecker_deterministic
    (capability : Option (List String → String × String × Int))
    (line cell : String) (r₁ r₂ : TypecheckResult × List String)
    (h₁ : r₁ = typechecker capability line cell)
    (h₂ : r₂ = typechecker capability line cell) :
    r₁.1 = r₂.1 ∧ r₁.2 = r₂.2 := by
  subst h₁ h₂
  exact ⟨rfl, rfl⟩

/-- Claim C9, witness: two invocations on the unavailable capability with
empty inputs agree. -/
theorem typechecker_deterministic_witness :
    (typechecker none "" "").1 = (typechecker none "" "").1 ∧
    (typechecker none "" "").2 = (typechecker none "" "").2 :=
  typechecker_deterministic none "" "" _ _ rfl rfl

/-- Claim C10: for a non-empty line made only of whitespace, splitting
yields no tokens, so the capability is invoked with exactly
`["-c", cell]`, the same as for the empty line. -/
theorem typechecker_ws_only_line (line cell : String)
    (_hne : line ≠ "")
    (hws : ∀ c ∈ line.toList, c.isWhitespace)
    (run : List String → String × String × Int) :
    typechecker (some run) line cell = typecheckProcess (run ["-c", cell]) ∧
    typechecker (some run) line cell = typechecker (some run) "" cell := by
  have h : typechecker (some run) line cell =
      typecheckProcess (run (["-c", cell] ++ pySplit line)) :=
    typechecker_some_eq run line cell
  rw [pySplit_all_ws line hws] at h
  constructor
  · exact h
  · rw [h, typechecker_some_eq run "" cell, pySplit_nil]

/-- Claim C10, witness: the two-space line is non-empty, all whitespace,
and leads to the same invocation as the empty line. -/
theorem typechecker_ws_only_line_witness :
    typechecker (some (fun _ => ("out", "err", 2))) "  " "pass" =
      typecheckProcess ((fun _ => ("out", "err", (2 : Int))) ["-c", "pass"]) ∧
    typechecker (some (fun _ => ("out", "err", 2))) "  " "pass" =
      typechecker (some (fun _ => ("out", "err", 2))) "" "pass" :=
  typechecker_ws_only_line "  " "pass" (by decide) (by decide)
    (fun _ => ("out", "err", 2))
